import Mathlib

/-
Verification development for the news-summarizer repository.

The repository consists of three near-duplicate Python applications
(`main.py`, `news_sentiment_analyzer.py`, `test.py`).  This file gives a
shallow embedding of the orchestration logic that the design claims are
about:

* the news-fetch helpers `get_news` (main.py / test.py, identical code) and
  `get_news_for_sentiment` (news_sentiment_analyzer.py);
* the tool-call dispatch `call_required_functions` /
  `call_sentiment_functions`;
* message extraction `process_message` / `process_sentiment_results`;
* thread creation `create_thread`;
* the polling loops `wait_for_run_completion` / `wait_for_completion` /
  `wait_for_sentiment_completion` (identical control flow, parameterised
  here by the dispatch function);
* `parse_sentiment_data`.

Python exceptions are modelled with `Except PyErr`; dictionary indexing
on a possibly-absent key is modelled with `Option` fields (`none` = key
absent), where direct indexing `d["k"]` raises `KeyError` and `d.get("k", v)`
substitutes the default.  The polling loop, an unbounded `while True`, is
modelled with explicit fuel; termination within any fuel is observable in
the result.
-/

set_option autoImplicit false

namespace NewsSummarizer

/-- Python exceptions relevant to the embedded code. -/
inductive PyErr where
  /-- `KeyError` from indexing a dict on an absent key. -/
  | keyError (key : String)
  /-- `IndexError` from indexing an empty list. -/
  | indexError
  /-- `ValueError` raised explicitly by the dispatch code. -/
  | valueError (msg : String)
deriving DecidableEq, Repr

/-- Model of Python's `str.lower()` (ASCII case folding suffices here). -/
def pyLower (s : String) : String :=
  ⟨s.data.map Char.toLower⟩

/-- `charsStart hay sub` is true when `sub` is an initial segment of `hay`. -/
def charsStart : List Char → List Char → Bool
  | _, [] => true
  | [], _ :: _ => false
  | c :: cs, d :: ds => c = d && charsStart cs ds

/-- `charsContain hay sub` is true when `sub` occurs contiguously in `hay`. -/
def charsContain (hay sub : List Char) : Bool :=
  match hay with
  | [] => charsStart [] sub
  | _ :: t => charsStart hay sub || charsContain t sub

/-- Model of Python's substring test `sub in hay`. -/
def pyIn (sub hay : String) : Bool :=
  charsContain hay.data sub.data

/-- Model of Python's `d[k]` on an optional field: `KeyError` when absent. -/
def pyIndex (field : Option String) (key : String) : Except PyErr String :=
  match field with
  | some v => Except.ok v
  | none => Except.error (PyErr.keyError key)

/-- Model of Python's `d.get(k, default)` on an optional field. -/
def pyGetD (field : Option String) (default : String) : String :=
  field.getD default

/--
An article item of a search response, as consumed by `get_news`
(main.py lines 98-104).  A field is `none` when the key is absent from the
item's JSON object; `source["name"]` is collapsed into one field.
-/
structure Article where
  sourceName : Option String
  author : Option String
  title : Option String
  description : Option String
  url : Option String
  content : Option String
deriving DecidableEq, Repr

/--
Body of a successful NewsAPI response as read by `get_news`
(main.py lines 92-94): the top-level keys `status`, `totalResults`,
`articles` are part of the NewsAPI contract and assumed present.
-/
structure NewsBody where
  status : String
  totalResults : Nat
  articles : List Article
deriving DecidableEq, Repr

/--
Outcome of `requests.get(url)`: either a response with a status code and a
parsed JSON body of type `β`, or a `requests.exceptions.RequestException`
(transport failure).
-/
inductive FetchOutcome (β : Type) where
  | success (statusCode : Nat) (body : β)
  | failure (msg : String)
deriving DecidableEq, Repr

/-- The block built for one article by `get_news` (main.py lines 107-114). -/
def formatNewsItem (a : Article) : Except PyErr String := do
  let source_name ← pyIndex a.sourceName "name"
  let author ← pyIndex a.author "author"
  let title ← pyIndex a.title "title"
  let description ← pyIndex a.description "description"
  let url ← pyIndex a.url "url"
  let _content ← pyIndex a.content "content"
  Except.ok ("\n                   Title: " ++ title ++ ", \n                   Author: "
    ++ author ++ ",\n                   Source: " ++ source_name
    ++ ",\n                   Description: " ++ description
    ++ ",\n                   URL: " ++ url ++ "\n            \n                ")

/--
`get_news(topic)` of main.py (lines 81-124; test.py is identical), as a
function of the outcome of its one HTTP request.  A transport exception is
caught and yields `[]`; a non-200 status yields `[]`; on a 200 response each
article is formatted by direct dict indexing, so an absent field raises
`KeyError`, which is not caught by the `except requests.exceptions.RequestException`
handler and propagates.
-/
def get_news (outcome : FetchOutcome NewsBody) : Except PyErr (List String) :=
  match outcome with
  | FetchOutcome.failure _ => Except.ok []
  | FetchOutcome.success statusCode body =>
    if statusCode = 200 then
      body.articles.mapM formatNewsItem
    else
      Except.ok []

/--
An article item as consumed by `get_news_for_sentiment`
(news_sentiment_analyzer.py lines 103-109); every lookup uses `.get` with a
default, and `source` collapses to one optional name field.
-/
structure SArticle where
  title : Option String
  description : Option String
  sourceName : Option String
  publishedAt : Option String
  content : Option String
deriving DecidableEq, Repr

/--
Body of a successful response as read by `get_news_for_sentiment`
(news_sentiment_analyzer.py line 100): `data.get("articles", [])`.
-/
structure SBody where
  articles : Option (List SArticle)
deriving DecidableEq, Repr

/--
The block built for the `i`-th article by `get_news_for_sentiment`
(news_sentiment_analyzer.py lines 105-120), with `.get` defaults as
placeholders and the content truncated to 200 characters.
-/
def formatSentimentItem (i : Nat) (a : SArticle) : String :=
  let title := pyGetD a.title "No title"
  let description := pyGetD a.description "No description"
  let source_name := pyGetD a.sourceName "Unknown source"
  let published_at := pyGetD a.publishedAt "Unknown date"
  let content := pyGetD a.content "No content"
  "\n                Article " ++ toString (i + 1) ++ ":\n                Title: "
    ++ title ++ "\n                Source: " ++ source_name
    ++ "\n                Published: " ++ published_at
    ++ "\n                Description: " ++ description
    ++ "\n                Content: " ++ content.take 200
    ++ "...\n                ---\n                "

/-- The `for i, article in enumerate(articles)` loop of `get_news_for_sentiment`. -/
def formatSentimentList (i : Nat) : List SArticle → List String
  | [] => []
  | a :: rest => formatSentimentItem i a :: formatSentimentList (i + 1) rest

/--
`get_news_for_sentiment(topic, page_size)` of news_sentiment_analyzer.py
(lines 95-130), as a function of the outcome of its one HTTP request.
Transport exception → `[]`; non-200 status → `[]`; on a 200 response every
field is read with `.get` defaults, so the function never raises.
-/
def get_news_for_sentiment (outcome : FetchOutcome SBody) : Except PyErr (List String) :=
  match outcome with
  | FetchOutcome.failure _ => Except.ok []
  | FetchOutcome.success statusCode body =>
    if statusCode = 200 then
      Except.ok (formatSentimentList 0 (body.articles.getD []))
    else
      Except.ok []

example : get_news (FetchOutcome.failure "timeout") = Except.ok [] := rfl

example : get_news (FetchOutcome.success 500 ⟨"error", 0, []⟩) = Except.ok [] := rfl

example :
    get_news (FetchOutcome.success 200
      ⟨"ok", 1, [⟨some "BBC", none, some "T", some "D", some "U", some "C"⟩]⟩)
      = Except.error (PyErr.keyError "author") := rfl

example :
    get_news_for_sentiment (FetchOutcome.success 200 ⟨some [⟨none, none, none, none, none⟩]⟩)
      = Except.ok [formatSentimentItem 0 ⟨none, none, none, none, none⟩] := rfl

example : pyIn "positive" (pyLower "Very POSITIVE news") = true := by decide

example : pyIn "negative" (pyLower "all good") = false := by decide

/--
The parsed `arguments` payload of a tool call, conforming to the declared
tool schema (`topic` required, `page_size` optional with default 10 in the
sentiment app).
-/
structure ToolCallArgs where
  topic : String
  page_size : Option Nat
deriving DecidableEq, Repr

/-- One entry of `required_actions["tool_calls"]`. -/
structure ToolCall where
  id : String
  name : String
  args : ToolCallArgs
deriving DecidableEq, Repr

/-- One entry of the `tool_outputs` batch submitted back to the service. -/
structure ToolOutput where
  tool_call_id : String
  output : String
deriving DecidableEq, Repr

/--
The `for action in required_actions["tool_calls"]` loop of
`call_required_functions` (main.py lines 336-353): a known name appends one
output built from `get_news` (whose error, if any, propagates); an unknown
name raises `ValueError` immediately, so no later call is processed and the
submission line is never reached.  `env` maps a topic to the outcome of the
HTTP request `get_news` performs for it.
-/
def processCalls (env : String → FetchOutcome NewsBody) :
    List ToolCall → Except PyErr (List ToolOutput)
  | [] => Except.ok []
  | action :: rest =>
    if action.name = "get_news" then do
      let output ← get_news (env action.args.topic)
      let final_str := output.foldl (fun acc item => acc ++ item) ""
      let outs ← processCalls env rest
      Except.ok ({ tool_call_id := action.id, output := final_str } :: outs)
    else
      Except.error (PyErr.valueError ("Unknown function: " ++ action.name))

/--
`call_required_functions` of main.py (lines 313-360; test.py identical).
`Except.ok none` is the silent early return when `self.run` is unset (no
submission); `Except.ok (some outs)` means the single
`submit_tool_outputs` call at the end was made with the whole batch `outs`;
`Except.error e` means an exception escaped before the submission line.
-/
def call_required_functions (env : String → FetchOutcome NewsBody) (runActive : Bool)
    (tool_calls : List ToolCall) : Except PyErr (Option (List ToolOutput)) :=
  if runActive then do
    let outs ← processCalls env tool_calls
    Except.ok (some outs)
  else
    Except.ok none

/--
The dispatch loop of `call_sentiment_functions`
(news_sentiment_analyzer.py lines 322-341): the known name is
`get_news_for_sentiment`, `page_size` is read with `.get("page_size", 10)`,
and the fetched articles are joined with newlines.  `env` maps a
(topic, page_size) pair to the outcome of the HTTP request.
-/
def processSentimentCalls (env : String → Nat → FetchOutcome SBody) :
    List ToolCall → Except PyErr (List ToolOutput)
  | [] => Except.ok []
  | action :: rest =>
    if action.name = "get_news_for_sentiment" then do
      let topic := action.args.topic
      let page_size := action.args.page_size.getD 10
      let articles ← get_news_for_sentiment (env topic page_size)
      let combined_articles := String.intercalate "\n" articles
      let outs ← processSentimentCalls env rest
      Except.ok ({ tool_call_id := action.id, output := combined_articles } :: outs)
    else
      Except.error (PyErr.valueError ("Unknown function: " ++ action.name))

/--
`call_sentiment_functions` of news_sentiment_analyzer.py (lines 310-350),
with the same result convention as `call_required_functions`.
-/
def call_sentiment_functions (env : String → Nat → FetchOutcome SBody) (runActive : Bool)
    (tool_calls : List ToolCall) : Except PyErr (Option (List ToolOutput)) :=
  if runActive then do
    let outs ← processSentimentCalls env tool_calls
    Except.ok (some outs)
  else
    Except.ok none

/-- The outputs actually sent by one `submit_tool_outputs` call, if reached. -/
def submittedOutputs : Except PyErr (Option (List ToolOutput)) → List ToolOutput
  | Except.ok (some outs) => outs
  | Except.ok none => []
  | Except.error _ => []

/-- One content element of a thread message (`content[0].text.value`). -/
structure MessageContent where
  text : String
deriving DecidableEq, Repr

/-- One message of a thread listing, newest first (`messages.data`). -/
structure Message where
  role : String
  content : List MessageContent
deriving DecidableEq, Repr

/--
`process_message` of main.py (lines 259-281; `process_sentiment_results` of
news_sentiment_analyzer.py lines 268-281 has the same structure).  With no
thread it silently does nothing (`Except.ok none`); with a thread it indexes
`messages.data[0]` and `content[0]` unconditionally, raising `IndexError`
on an empty listing or empty content, and otherwise stores the first
message's text (`Except.ok (some text)`).  Note: the run status is not an
input — the source performs no status check.
-/
def process_message (hasThread : Bool) (msgs : List Message) :
    Except PyErr (Option String) :=
  if hasThread then
    match msgs with
    | [] => Except.error PyErr.indexError
    | m :: _ =>
      match m.content with
      | [] => Except.error PyErr.indexError
      | c :: _ => Except.ok (some c.text)
  else
    Except.ok none

/--
The observable state the extraction step runs against: whether a thread
exists, the current run status string, and the thread's message listing
(newest first).
-/
structure OrchestratorState where
  hasThread : Bool
  runStatus : String
  msgs : List Message
deriving DecidableEq, Repr

/--
Result extraction as invoked on an orchestrator state: it reads only the
thread and the message listing; the run status field is not consulted
(faithful to `process_message`, which takes no status).
-/
def extractResult (s : OrchestratorState) : Except PyErr (Option String) :=
  process_message s.hasThread s.msgs

/--
The state relevant to `create_thread` (main.py lines 201-218; identical in
the other two files): the class variable `AssistantManager.thread_id`, the
instance field `self.thread` (modelled by the thread's identifier), and the
supply of fresh identifiers from the remote service.
-/
structure ManagerState where
  classThreadId : Option Nat
  thread : Option Nat
  nextId : Nat
deriving DecidableEq, Repr

/--
`AssistantManager.__init__` (main.py lines 152-174) as far as the thread is
concerned: when the class variable holds an identifier, the thread is
retrieved by that identifier; otherwise `self.thread` is `None`.
-/
def initManager (classThreadId : Option Nat) (nextId : Nat) : ManagerState :=
  { classThreadId := classThreadId, thread := classThreadId, nextId := nextId }

/--
`create_thread` (main.py lines 201-218): `if not self.thread:` create a new
thread (consuming a fresh identifier) and record it in both the class
variable and the instance; otherwise do nothing.
-/
def create_thread (s : ManagerState) : ManagerState :=
  match s.thread with
  | some _ => s
  | none =>
    { classThreadId := some s.nextId, thread := some s.nextId, nextId := s.nextId + 1 }

/-- One polled observation: the run's status string and, when the status is
`"requires_action"`, the pending tool calls of that cycle. -/
structure StatusObs where
  status : String
  tool_calls : List ToolCall
deriving Repr

/-- How the polling loop ended, when it did. -/
inductive LoopExit where
  /-- The `"completed"` branch ran `process_message` and broke the loop. -/
  | completed (summary : Except PyErr (Option String))
  /-- An exception escaped from the dispatch of a `"requires_action"` cycle. -/
  | raised (e : PyErr)
deriving Repr

/--
The `while True` polling loop shared by `wait_for_run_completion` (main.py
lines 283-311), `wait_for_completion` (test.py lines 333-360) and
`wait_for_sentiment_completion` (news_sentiment_analyzer.py lines 283-308),
parameterised by the dispatch function of the respective file.  `stream k`
is the observation of the `k`-th poll; `msgs` is the thread's message
listing read on completion.  Each iteration first sleeps 5 seconds
(`time.sleep(5)`), recorded in the returned wait trace, then retrieves the
status; only `"completed"` breaks the loop, a `"requires_action"` cycle
dispatches and continues (or ends the loop by exception), and every other
status — including `"failed"` — just loops.  The `while True` loop is given
explicit fuel; `none` means the loop was still running when the fuel ran
out.
-/
def waitLoop (dispatch : List ToolCall → Except PyErr (Option (List ToolOutput)))
    (stream : Nat → StatusObs) (msgs : List Message) :
    Nat → Nat → List Nat × Option LoopExit
  | _, 0 => ([], none)
  | n, fuel + 1 =>
    let obs := stream n
    if obs.status = "completed" then
      ([5], some (LoopExit.completed (process_message true msgs)))
    else if obs.status = "requires_action" then
      match dispatch obs.tool_calls with
      | Except.error e => ([5], some (LoopExit.raised e))
      | Except.ok _ =>
        let r := waitLoop dispatch stream msgs (n + 1) fuel
        (5 :: r.1, r.2)
    else
      let r := waitLoop dispatch stream msgs (n + 1) fuel
      (5 :: r.1, r.2)

/-- `wait_for_run_completion` of main.py, with its dispatch. -/
def wait_for_run_completion (env : String → FetchOutcome NewsBody)
    (stream : Nat → StatusObs) (msgs : List Message) (n fuel : Nat) :
    List Nat × Option LoopExit :=
  waitLoop (call_required_functions env true) stream msgs n fuel

/-- `wait_for_sentiment_completion` of news_sentiment_analyzer.py, with its
dispatch. -/
def wait_for_sentiment_completion (env : String → Nat → FetchOutcome SBody)
    (stream : Nat → StatusObs) (msgs : List Message) (n fuel : Nat) :
    List Nat × Option LoopExit :=
  waitLoop (call_sentiment_functions env true) stream msgs n fuel

/--
Whether the observation `obs` ends the loop under dispatch `dispatch`:
either the one terminal-for-the-loop status `"completed"`, or a
`"requires_action"` cycle whose dispatch raises.
-/
def exitsIteration (dispatch : List ToolCall → Except PyErr (Option (List ToolOutput)))
    (obs : StatusObs) : Bool :=
  obs.status == "completed"
    || (obs.status == "requires_action" && (dispatch obs.tool_calls).toOption.isNone)

/-- A run status stream that reports the terminal failure status forever
(the remote service never leaves `"failed"` once there). -/
def failedStream : Nat → StatusObs :=
  fun _ => { status := "failed", tool_calls := [] }

/-- Structured result of `parse_sentiment_data` (the returned dict). -/
structure SentimentData where
  score : ℚ
  category : String
  confidence : Nat
  analysis : String
deriving DecidableEq, Repr

/--
`parse_sentiment_data` of news_sentiment_analyzer.py (lines 356-395).
`if not self.sentiment_analysis: return None` covers both `None` and the
empty string; otherwise the lowercased text is probed with substring tests,
the `positive` branch shadowing the `negative` one.
-/
def parse_sentiment_data (sentiment_analysis : Option String) : Option SentimentData :=
  match sentiment_analysis with
  | none => none
  | some s =>
    if s = "" then none
    else
      let analysis_text := pyLower s
      if pyIn "positive" analysis_text then
        let score : ℚ :=
          if pyIn "very positive" analysis_text || pyIn "highly positive" analysis_text then
            0.8
          else if pyIn "moderately positive" analysis_text then 0.5
          else 0.3
        some { score := score, category := "Positive", confidence := 85, analysis := s }
      else if pyIn "negative" analysis_text then
        let score : ℚ :=
          if pyIn "very negative" analysis_text || pyIn "highly negative" analysis_text then
            -0.8
          else if pyIn "moderately negative" analysis_text then -0.5
          else -0.3
        some { score := score, category := "Negative", confidence := 85, analysis := s }
      else
        some { score := 0, category := "Neutral", confidence := 85, analysis := s }

example :
    call_required_functions (fun _ => FetchOutcome.failure "down") true
      [⟨"call_1", "get_news", ⟨"bitcoin", none⟩⟩]
      = Except.ok (some [⟨"call_1", ""⟩]) := rfl

example :
    call_required_functions (fun _ => FetchOutcome.failure "down") true
      [⟨"call_1", "fetch_weather", ⟨"bitcoin", none⟩⟩]
      = Except.error (PyErr.valueError "Unknown function: fetch_weather") := rfl

example : process_message true [] = Except.error PyErr.indexError := rfl

example :
    process_message true [⟨"assistant", [⟨"hello"⟩]⟩] = Except.ok (some "hello") := rfl

example :
    parse_sentiment_data (some "Highly Positive but slightly negative")
      = some { score := 0.8, category := "Positive", confidence := 85,
               analysis := "Highly Positive but slightly negative" } := rfl

example : parse_sentiment_data (some "") = none := rfl

example :
    wait_for_run_completion (fun _ => FetchOutcome.failure "x") failedStream [] 0 3
      = ([5, 5, 5], none) := rfl

/-! ### Helper lemmas -/

lemma formatSentimentList_length (i : Nat) (l : List SArticle) :
    (formatSentimentList i l).length = l.length := by
  induction l generalizing i with
  | nil => rfl
  | cons a rest ih => simp [formatSentimentList, ih]

lemma get_news_for_sentiment_total (o : FetchOutcome SBody) :
    ∃ xs, get_news_for_sentiment o = Except.ok xs := by
  cases o with
  | failure m => exact ⟨[], rfl⟩
  | success code body =>
    by_cases h : code = 200
    · exact ⟨formatSentimentList 0 (body.articles.getD []),
        by simp [get_news_for_sentiment, h]⟩
    · exact ⟨[], by simp [get_news_for_sentiment, h]⟩

lemma processCalls_known (env : String → FetchOutcome NewsBody) (calls : List ToolCall)
    (h1 : ∀ c ∈ calls, c.name = "get_news")
    (h2 : ∀ c ∈ calls, ∃ xs, get_news (env c.args.topic) = Except.ok xs) :
    ∃ outs, processCalls env calls = Except.ok outs
      ∧ outs.map ToolOutput.tool_call_id = calls.map ToolCall.id := by
  induction calls with
  | nil => exact ⟨[], rfl, rfl⟩
  | cons a rest ih =>
    obtain ⟨xs, hxs⟩ := h2 a (List.mem_cons_self a rest)
    obtain ⟨outs, houts, hmap⟩ :=
      ih (fun c hc => h1 c (List.mem_cons_of_mem a hc))
        (fun c hc => h2 c (List.mem_cons_of_mem a hc))
    refine ⟨{ tool_call_id := a.id,
              output := xs.foldl (fun acc item => acc ++ item) "" } :: outs, ?_, ?_⟩
    · simp only [processCalls, h1 a (List.mem_cons_self a rest), if_true, hxs, houts]
      rfl
    · simp [hmap]

lemma processCalls_unknown (env : String → FetchOutcome NewsBody)
    (henv : ∀ t, ∃ xs, get_news (env t) = Except.ok xs) (calls : List ToolCall)
    (c : ToolCall) (hc : c ∈ calls) (hcn : c.name ≠ "get_news") :
    ∃ m, processCalls env calls = Except.error (PyErr.valueError m) := by
  induction calls with
  | nil => exact absurd hc (List.not_mem_nil c)
  | cons a rest ih =>
    by_cases ha : a.name = "get_news"
    · have hcr : c ∈ rest := by
        rcases List.mem_cons.mp hc with h | h
        · exact absurd (h ▸ hcn) (by simp [ha])
        · exact h
      obtain ⟨m, hm⟩ := ih hcr
      obtain ⟨xs, hxs⟩ := henv a.args.topic
      refine ⟨m, ?_⟩
      simp only [processCalls, ha, if_true, hxs, hm]
      rfl
    · exact ⟨"Unknown function: " ++ a.name, by simp [processCalls, ha]⟩

lemma processSentimentCalls_known (env : String → Nat → FetchOutcome SBody)
    (calls : List ToolCall) (h1 : ∀ c ∈ calls, c.name = "get_news_for_sentiment") :
    ∃ outs, processSentimentCalls env calls = Except.ok outs
      ∧ outs.map ToolOutput.tool_call_id = calls.map ToolCall.id := by
  induction calls with
  | nil => exact ⟨[], rfl, rfl⟩
  | cons a rest ih =>
    obtain ⟨xs, hxs⟩ :=
      get_news_for_sentiment_total (env a.args.topic (a.args.page_size.getD 10))
    obtain ⟨outs, houts, hmap⟩ := ih (fun c hc => h1 c (List.mem_cons_of_mem a hc))
    refine ⟨{ tool_call_id := a.id, output := String.intercalate "\n" xs } :: outs, ?_, ?_⟩
    · simp only [processSentimentCalls, h1 a (List.mem_cons_self a rest), if_true, hxs, houts]
      rfl
    · simp [hmap]

lemma processSentimentCalls_unknown (env : String → Nat → FetchOutcome SBody)
    (calls : List ToolCall) (c : ToolCall) (hc : c ∈ calls)
    (hcn : c.name ≠ "get_news_for_sentiment") :
    ∃ m, processSentimentCalls env calls = Except.error (PyErr.valueError m) := by
  induction calls with
  | nil => exact absurd hc (List.not_mem_nil c)
  | cons a rest ih =>
    by_cases ha : a.name = "get_news_for_sentiment"
    · have hcr : c ∈ rest := by
        rcases List.mem_cons.mp hc with h | h
        · exact absurd (h ▸ hcn) (by simp [ha])
        · exact h
      obtain ⟨m, hm⟩ := ih hcr
      obtain ⟨xs, hxs⟩ :=
        get_news_for_sentiment_total (env a.args.topic (a.args.page_size.getD 10))
      refine ⟨m, ?_⟩
      simp only [processSentimentCalls, ha, if_true, hxs, hm]
      rfl
    · exact ⟨"Unknown function: " ++ a.name, by simp [processSentimentCalls, ha]⟩

lemma waitLoop_no_exit (dispatch : List ToolCall → Except PyErr (Option (List ToolOutput)))
    (stream : Nat → StatusObs) (msgs : List Message)
    (h : ∀ k, exitsIteration dispatch (stream k) = false) :
    ∀ fuel n, waitLoop dispatch stream msgs n fuel = (List.replicate fuel 5, none) := by
  intro fuel
  induction fuel with
  | zero => intro n; rfl
  | succ m ih =>
    intro n
    have hk := h n
    unfold exitsIteration at hk
    rw [Bool.or_eq_false_iff] at hk
    obtain ⟨h1, h2⟩ := hk
    have h1' : (stream n).status ≠ "completed" := by
      intro hx
      simp [hx] at h1
    unfold waitLoop
    rw [if_neg h1']
    by_cases hra : (stream n).status = "requires_action"
    · rw [if_pos hra]
      simp only [hra, beq_self_eq_true, Bool.true_and] at h2
      cases hd : dispatch (stream n).tool_calls with
      | error e => simp [hd, Except.toOption] at h2
      | ok v => simp [hd, ih, List.replicate_succ]
    · rw [if_neg hra]
      simp [ih, List.replicate_succ]

/-! ### Claim theorems -/

/--
C1 (counterexample): the claim fails for `get_news`.  On a successful
(HTTP 200) search response containing one article whose `author` key is
absent (all other fields present), `get_news` does not produce a formatted
block with a placeholder: the direct dict indexing raises `KeyError`
(uncaught by the `RequestException` handler), and no list of blocks is
returned at all.
-/
theorem get_news_missing_author_counterexample :
    get_news (FetchOutcome.success 200
      { status := "ok", totalResults := 1,
        articles := [{ sourceName := some "BBC", author := none,
                       title := some "Markets rally", description := some "Stocks up",
                       url := some "http://example.org/a", content := some "body" }] })
      = Except.error (PyErr.keyError "author")
    ∧ (get_news (FetchOutcome.success 200
      { status := "ok", totalResults := 1,
        articles := [{ sourceName := some "BBC", author := none,
                       title := some "Markets rally", description := some "Stocks up",
                       url := some "http://example.org/a", content := some "body" }] })).toOption
      = none :=
  ⟨rfl, rfl⟩

/--
C1 (amended): for `get_news_for_sentiment` the claim holds — on a
successful (HTTP 200) search response it always returns one formatted
block per article (never failing, never shortening the batch), and an
article with an absent optional field produces exactly the block obtained
by substituting the placeholder value for that field; `get_news`, by
contrast, raises an uncaught `KeyError` on an article missing a field
(see the counterexample), and `author` is not used by
`get_news_for_sentiment` at all.
-/
theorem get_news_for_sentiment_missing_field_tolerance (body : SBody) :
    (∃ blocks, get_news_for_sentiment (FetchOutcome.success 200 body) = Except.ok blocks
      ∧ blocks.length = (body.articles.getD []).length)
    ∧ (∀ (i : Nat) (a : SArticle),
        formatSentimentItem i { a with description := none }
          = formatSentimentItem i { a with description := some "No description" }
        ∧ formatSentimentItem i { a with title := none }
          = formatSentimentItem i { a with title := some "No title" }
        ∧ formatSentimentItem i { a with content := none }
          = formatSentimentItem i { a with content := some "No content" }) := by
  refine ⟨⟨formatSentimentList 0 (body.articles.getD []), ?_, formatSentimentList_length 0 _⟩, ?_⟩
  · simp [get_news_for_sentiment]
  · intro i a
    exact ⟨rfl, rfl, rfl⟩

/--
C2: a transport error (`RequestException`) or a non-success HTTP status
makes both `get_news` and `get_news_for_sentiment` return the empty list,
with no exception propagating to the caller.
-/
theorem search_soft_failure (msg : String) (code : Nat) (body : NewsBody) (sbody : SBody)
    (h : code ≠ 200) :
    get_news (FetchOutcome.failure msg) = Except.ok []
    ∧ get_news_for_sentiment (FetchOutcome.failure msg) = Except.ok []
    ∧ get_news (FetchOutcome.success code body) = Except.ok []
    ∧ get_news_for_sentiment (FetchOutcome.success code sbody) = Except.ok [] := by
  refine ⟨rfl, rfl, ?_, ?_⟩
  · simp [get_news, h]
  · simp [get_news_for_sentiment, h]

theorem search_soft_failure_witness :
    (500 ≠ 200)
    ∧ (get_news (FetchOutcome.failure "connection reset") = Except.ok []
      ∧ get_news_for_sentiment (FetchOutcome.failure "connection reset") = Except.ok []
      ∧ get_news (FetchOutcome.success 500 { status := "error", totalResults := 0, articles := [] })
          = Except.ok []
      ∧ get_news_for_sentiment (FetchOutcome.success 500 { articles := none }) = Except.ok []) :=
  ⟨by decide, search_soft_failure "connection reset" 500
    { status := "error", totalResults := 0, articles := [] } { articles := none } (by decide)⟩

/--
C3 (code bug): on a run whose polled status is the terminal failure status
`"failed"` at every poll, neither `wait_for_run_completion` nor
`wait_for_sentiment_completion` ever terminates — for every amount of fuel
the loop is still polling (result `none`), sleeping 5 seconds each
iteration, and no output or error is ever surfaced.  The loop handles only
`"completed"` and `"requires_action"`, contradicting the specified
behaviour that `FAILED` is terminal and must be surfaced to the caller.
-/
theorem failed_run_polls_forever (env : String → FetchOutcome NewsBody)
    (senv : String → Nat → FetchOutcome SBody) (msgs smsgs : List Message) (n fuel : Nat) :
    wait_for_run_completion env failedStream msgs n fuel = (List.replicate fuel 5, none)
    ∧ wait_for_sentiment_completion senv failedStream smsgs n fuel
        = (List.replicate fuel 5, none) :=
  ⟨waitLoop_no_exit (call_required_functions env true) failedStream msgs (fun _ => rfl) fuel n,
   waitLoop_no_exit (call_sentiment_functions senv true) failedStream smsgs (fun _ => rfl) fuel n⟩

/--
C6: `create_thread` is idempotent — a second call on a state that already
holds a thread changes nothing, so both calls observe the same thread
identifier; moreover a manager constructed afterwards in the same process
picks the cached identifier up from the class variable, and its
`create_thread` creates nothing new (the identifier supply is untouched).
-/
theorem create_thread_idempotent (s : ManagerState) (cv : Option Nat) (n0 n1 : Nat) :
    create_thread (create_thread s) = create_thread s
    ∧ ((create_thread s).thread).isSome = true
    ∧ (create_thread (initManager (create_thread (initManager cv n0)).classThreadId n1)).thread
        = (create_thread (initManager cv n0)).thread
    ∧ (create_thread (initManager (create_thread (initManager cv n0)).classThreadId n1)).nextId
        = n1 := by
  obtain ⟨cts, th, nid⟩ := s
  cases th <;> cases cv <;> simp [create_thread, initManager]

/--
C9: `process_message` indexes `messages.data[0]` and `content[0]`
unconditionally — on an empty message listing, or a first message with no
content elements, it fails with `IndexError`; only under the precondition
that the listing is non-empty and its first message has at least one
content element does it return a defined value (that first text).
-/
theorem process_message_unconditional_indexing (role : String) (c : MessageContent)
    (cs : List MessageContent) (rest : List Message) :
    process_message true ([] : List Message) = Except.error PyErr.indexError
    ∧ process_message true ({ role := role, content := [] } :: rest)
        = Except.error PyErr.indexError
    ∧ process_message true ({ role := role, content := c :: cs } :: rest)
        = Except.ok (some c.text) :=
  ⟨rfl, rfl, rfl⟩

/--
C4: a callback cycle containing a request whose function name is not the
single known local fetch function makes the dispatch
(`call_required_functions` / `call_sentiment_functions`) raise
`ValueError` and reach no submission — no tool outputs are sent for that
cycle, and the unknown call is never silently skipped.  (For the main-app
dispatch the local fetches of earlier known calls are assumed not to raise
themselves, which is the situation the claim describes.)
-/
theorem unknown_function_fatal (env : String → FetchOutcome NewsBody)
    (senv : String → Nat → FetchOutcome SBody) (calls scalls : List ToolCall)
    (c d : ToolCall) (hc : c ∈ calls) (hcn : c.name ≠ "get_news")
    (henv : ∀ t, ∃ xs, get_news (env t) = Except.ok xs)
    (hd : d ∈ scalls) (hdn : d.name ≠ "get_news_for_sentiment") :
    (∃ m, call_required_functions env true calls = Except.error (PyErr.valueError m))
    ∧ submittedOutputs (call_required_functions env true calls) = []
    ∧ (∃ m, call_sentiment_functions senv true scalls = Except.error (PyErr.valueError m))
    ∧ submittedOutputs (call_sentiment_functions senv true scalls) = [] := by
  obtain ⟨m1, hm1⟩ := processCalls_unknown env henv calls c hc hcn
  obtain ⟨m2, hm2⟩ := processSentimentCalls_unknown senv scalls d hd hdn
  have e1 : call_required_functions env true calls = Except.error (PyErr.valueError m1) := by
    simp only [call_required_functions, if_true, hm1]
    rfl
  have e2 : call_sentiment_functions senv true scalls = Except.error (PyErr.valueError m2) := by
    simp only [call_sentiment_functions, if_true, hm2]
    rfl
  exact ⟨⟨m1, e1⟩, by simp [submittedOutputs, e1], ⟨m2, e2⟩, by simp [submittedOutputs, e2]⟩

theorem unknown_function_fatal_witness :
    (⟨"call_9", "delete_everything", ⟨"x", none⟩⟩ : ToolCall)
        ∈ [(⟨"call_9", "delete_everything", ⟨"x", none⟩⟩ : ToolCall)]
    ∧ (⟨"call_9", "delete_everything", ⟨"x", none⟩⟩ : ToolCall).name ≠ "get_news"
    ∧ (∀ t, ∃ xs, get_news ((fun (_ : String) => FetchOutcome.failure "down") t) = Except.ok xs)
    ∧ (⟨"call_10", "get_weather", ⟨"y", none⟩⟩ : ToolCall)
        ∈ [(⟨"call_10", "get_weather", ⟨"y", none⟩⟩ : ToolCall)]
    ∧ (⟨"call_10", "get_weather", ⟨"y", none⟩⟩ : ToolCall).name ≠ "get_news_for_sentiment"
    ∧ ((∃ m, call_required_functions (fun _ => FetchOutcome.failure "down") true
          [⟨"call_9", "delete_everything", ⟨"x", none⟩⟩]
          = Except.error (PyErr.valueError m))
      ∧ submittedOutputs (call_required_functions (fun _ => FetchOutcome.failure "down") true
          [⟨"call_9", "delete_everything", ⟨"x", none⟩⟩]) = []
      ∧ (∃ m, call_sentiment_functions (fun _ _ => FetchOutcome.failure "down") true
          [⟨"call_10", "get_weather", ⟨"y", none⟩⟩]
          = Except.error (PyErr.valueError m))
      ∧ submittedOutputs (call_sentiment_functions (fun _ _ => FetchOutcome.failure "down") true
          [⟨"call_10", "get_weather", ⟨"y", none⟩⟩]) = []) :=
  ⟨List.mem_cons_self _ _, by decide, fun _ => ⟨[], rfl⟩, List.mem_cons_self _ _, by decide,
   unknown_function_fatal (fun _ => FetchOutcome.failure "down")
     (fun _ _ => FetchOutcome.failure "down") _ _ _ _ (List.mem_cons_self _ _) (by decide)
     (fun _ => ⟨[], rfl⟩) (List.mem_cons_self _ _) (by decide)⟩

/--
C5 (counterexample): the claim fails on the code — extraction performed on
a state whose run status is `"in_progress"` does not fail explicitly: it
returns a value (the first message's text, here the user's own message)
because `process_message` never consults the run status.
-/
theorem extraction_in_progress_counterexample :
    extractResult { hasThread := true, runStatus := "in_progress",
                    msgs := [{ role := "user",
                               content := [{ text := "summarize the news on this topic bitcoin?" }] }] }
      = Except.ok (some "summarize the news on this topic bitcoin?")
    ∧ ({ hasThread := true, runStatus := "in_progress",
         msgs := [{ role := "user",
                    content := [{ text := "summarize the news on this topic bitcoin?" }] }] }
        : OrchestratorState).runStatus = "in_progress" :=
  ⟨rfl, rfl⟩

/--
C5 (amended): `process_message` / `process_sentiment_results` perform no
status check at all — for every run status (including `"in_progress"` and
`"requires_action"`), extraction on a state with a thread and a non-empty
message listing returns the first message's first content text rather than
failing; in particular on `"completed"` (the only point where the poll
loop invokes it) it returns the stored final text.  Without a thread it is
a silent no-op.
-/
theorem extraction_ignores_run_status (status role text : String)
    (cs : List MessageContent) (rest : List Message) :
    extractResult { hasThread := true, runStatus := status,
                    msgs := { role := role, content := { text := text } :: cs } :: rest }
      = Except.ok (some text)
    ∧ extractResult { hasThread := false, runStatus := status, msgs := rest }
      = Except.ok none :=
  ⟨rfl, rfl⟩

/--
C7: in a `requires_action` cycle in which every requested function name is
the known one, the dispatch produces exactly one output per tool call,
keyed by that call's identifier and in the same order, and makes a single
batch submission containing all of them — never a partial one.  (For the
main-app dispatch the local fetch is assumed to return a result for each
requested topic.)
-/
theorem known_calls_single_batch (env : String → FetchOutcome NewsBody)
    (senv : String → Nat → FetchOutcome SBody) (calls scalls : List ToolCall)
    (h1 : ∀ c ∈ calls, c.name = "get_news")
    (h2 : ∀ c ∈ calls, ∃ xs, get_news (env c.args.topic) = Except.ok xs)
    (h3 : ∀ c ∈ scalls, c.name = "get_news_for_sentiment") :
    (∃ outs, call_required_functions env true calls = Except.ok (some outs)
      ∧ outs.map ToolOutput.tool_call_id = calls.map ToolCall.id
      ∧ outs.length = calls.length)
    ∧ (∃ souts, call_sentiment_functions senv true scalls = Except.ok (some souts)
      ∧ souts.map ToolOutput.tool_call_id = scalls.map ToolCall.id
      ∧ souts.length = scalls.length) := by
  obtain ⟨outs, houts, hmap⟩ := processCalls_known env calls h1 h2
  obtain ⟨souts, hsouts, hsmap⟩ := processSentimentCalls_known senv scalls h3
  have hlen : outs.length = calls.length := by
    have := congrArg List.length hmap
    simpa using this
  have hslen : souts.length = scalls.length := by
    have := congrArg List.length hsmap
    simpa using this
  refine ⟨⟨outs, ?_, hmap, hlen⟩, ⟨souts, ?_, hsmap, hslen⟩⟩
  · simp only [call_required_functions, if_true, houts]
    rfl
  · simp only [call_sentiment_functions, if_true, hsouts]
    rfl

theorem known_calls_single_batch_witness :
    (∀ c ∈ [(⟨"call_abc", "get_news", ⟨"bitcoin", none⟩⟩ : ToolCall)], c.name = "get_news")
    ∧ (∀ c ∈ [(⟨"call_abc", "get_news", ⟨"bitcoin", none⟩⟩ : ToolCall)],
        ∃ xs, get_news ((fun (_ : String) => FetchOutcome.failure "net down") c.args.topic)
          = Except.ok xs)
    ∧ (∀ c ∈ [(⟨"call_def", "get_news_for_sentiment", ⟨"tesla", some 5⟩⟩ : ToolCall)],
        c.name = "get_news_for_sentiment")
    ∧ ((∃ outs, call_required_functions (fun _ => FetchOutcome.failure "net down") true
          [⟨"call_abc", "get_news", ⟨"bitcoin", none⟩⟩] = Except.ok (some outs)
        ∧ outs.map ToolOutput.tool_call_id
            = ([⟨"call_abc", "get_news", ⟨"bitcoin", none⟩⟩] : List ToolCall).map ToolCall.id
        ∧ outs.length = ([⟨"call_abc", "get_news", ⟨"bitcoin", none⟩⟩] : List ToolCall).length)
      ∧ (∃ souts, call_sentiment_functions (fun _ _ => FetchOutcome.failure "net down") true
          [⟨"call_def", "get_news_for_sentiment", ⟨"tesla", some 5⟩⟩] = Except.ok (some souts)
        ∧ souts.map ToolOutput.tool_call_id
            = ([⟨"call_def", "get_news_for_sentiment", ⟨"tesla", some 5⟩⟩] : List ToolCall).map
                ToolCall.id
        ∧ souts.length
            = ([⟨"call_def", "get_news_for_sentiment", ⟨"tesla", some 5⟩⟩] : List ToolCall).length)) :=
  ⟨by decide, fun _ _ => ⟨[], rfl⟩, by decide,
   known_calls_single_batch (fun _ => FetchOutcome.failure "net down")
     (fun _ _ => FetchOutcome.failure "net down") _ _ (by decide) (fun _ _ => ⟨[], rfl⟩)
     (by decide)⟩

/--
C8: the polling loop sleeps the fixed interval 5 before every status
check — the wait trace of a run of `fuel` iterations is `replicate fuel 5`
(no backoff) — and it applies no retry bound and no timeout: on any status
stream in which no observation ends the loop (no `"completed"` status and
no dispatch exception), the loop is still running after every amount of
fuel, i.e. it never terminates.
-/
theorem poll_fixed_interval_unbounded
    (dispatch : List ToolCall → Except PyErr (Option (List ToolOutput)))
    (stream : Nat → StatusObs) (msgs : List Message)
    (h : ∀ k, exitsIteration dispatch (stream k) = false) (fuel n : Nat) :
    waitLoop dispatch stream msgs n fuel = (List.replicate fuel 5, none) :=
  waitLoop_no_exit dispatch stream msgs h fuel n

theorem poll_fixed_interval_unbounded_witness :
    (∀ k, exitsIteration
        (call_required_functions (fun (_ : String) => FetchOutcome.failure "offline") true)
        ((fun (_ : Nat) => ({ status := "in_progress", tool_calls := [] } : StatusObs)) k) = false)
    ∧ waitLoop (call_required_functions (fun (_ : String) => FetchOutcome.failure "offline") true)
        (fun (_ : Nat) => ({ status := "in_progress", tool_calls := [] } : StatusObs)) [] 0 4
      = (List.replicate 4 5, none) :=
  ⟨fun _ => rfl,
   poll_fixed_interval_unbounded
     (call_required_functions (fun _ => FetchOutcome.failure "offline") true)
     (fun _ => ({ status := "in_progress", tool_calls := [] } : StatusObs)) []
     (fun _ => rfl) 4 0⟩

/--
C10: on any stored non-empty analysis text, `parse_sentiment_data` returns
a result whose score lies in `[-1, 1]` — in fact one of
`0.8, 0.5, 0.3, -0.8, -0.5, -0.3, 0` — with confidence exactly `85` and
the original text carried through; the category comes from
case-insensitive substring tests in which `"positive"` takes precedence
over `"negative"` (a text containing both is `"Positive"`), and a text
containing neither is `"Neutral"` with score `0`.  With no stored analysis
it returns `none`.
-/
theorem parse_sentiment_data_shape (s : String) (h : s ≠ "") :
    (∃ d, parse_sentiment_data (some s) = some d
      ∧ -1 ≤ d.score ∧ d.score ≤ 1
      ∧ d.score ∈ ([0.8, 0.5, 0.3, -0.8, -0.5, -0.3, 0] : List ℚ)
      ∧ d.confidence = 85
      ∧ d.analysis = s
      ∧ (pyIn "positive" (pyLower s) = true → d.category = "Positive")
      ∧ (pyIn "positive" (pyLower s) = false → pyIn "negative" (pyLower s) = true →
          d.category = "Negative")
      ∧ (pyIn "positive" (pyLower s) = false → pyIn "negative" (pyLower s) = false →
          d.category = "Neutral" ∧ d.score = 0))
    ∧ parse_sentiment_data none = none := by
  refine ⟨?_, rfl⟩
  cases hp : pyIn "positive" (pyLower s) with
  | true =>
    cases hv : (pyIn "very positive" (pyLower s) || pyIn "highly positive" (pyLower s)) with
    | true =>
      exact ⟨⟨0.8, "Positive", 85, s⟩, by simp [parse_sentiment_data, h, hp, hv],
        by norm_num, by norm_num, by norm_num [List.mem_cons], rfl, rfl, fun _ => rfl,
        fun hf => by simp [hp] at hf, fun hf _ => by simp [hp] at hf⟩
    | false =>
      cases hm : pyIn "moderately positive" (pyLower s) with
      | true =>
        exact ⟨⟨0.5, "Positive", 85, s⟩, by simp [parse_sentiment_data, h, hp, hv, hm],
          by norm_num, by norm_num, by norm_num [List.mem_cons], rfl, rfl, fun _ => rfl,
          fun hf => by simp [hp] at hf, fun hf _ => by simp [hp] at hf⟩
      | false =>
        exact ⟨⟨0.3, "Positive", 85, s⟩, by simp [parse_sentiment_data, h, hp, hv, hm],
          by norm_num, by norm_num, by norm_num [List.mem_cons], rfl, rfl, fun _ => rfl,
          fun hf => by simp [hp] at hf, fun hf _ => by simp [hp] at hf⟩
  | false =>
    cases hn : pyIn "negative" (pyLower s) with
    | true =>
      cases hv : (pyIn "very negative" (pyLower s) || pyIn "highly negative" (pyLower s)) with
      | true =>
        exact ⟨⟨-0.8, "Negative", 85, s⟩, by simp [parse_sentiment_data, h, hp, hn, hv],
          by norm_num, by norm_num, by norm_num [List.mem_cons], rfl, rfl,
          fun ht => by simp [hp] at ht, fun _ _ => rfl, fun _ hf => by simp [hn] at hf⟩
      | false =>
        cases hm : pyIn "moderately negative" (pyLower s) with
        | true =>
          exact ⟨⟨-0.5, "Negative", 85, s⟩, by simp [parse_sentiment_data, h, hp, hn, hv, hm],
            by norm_num, by norm_num, by norm_num [List.mem_cons], rfl, rfl,
            fun ht => by simp [hp] at ht, fun _ _ => rfl, fun _ hf => by simp [hn] at hf⟩
        | false =>
          exact ⟨⟨-0.3, "Negative", 85, s⟩, by simp [parse_sentiment_data, h, hp, hn, hv, hm],
            by norm_num, by norm_num, by norm_num [List.mem_cons], rfl, rfl,
            fun ht => by simp [hp] at ht, fun _ _ => rfl, fun _ hf => by simp [hn] at hf⟩
    | false =>
      exact ⟨⟨0, "Neutral", 85, s⟩, by simp [parse_sentiment_data, h, hp, hn],
        by norm_num, by norm_num, by norm_num [List.mem_cons], rfl, rfl,
        fun ht => by simp [hp] at ht, fun _ ht => by simp [hn] at ht,
        fun _ _ => ⟨rfl, rfl⟩⟩

theorem parse_sentiment_data_shape_witness :
    ("Coverage looks moderately negative overall" ≠ "")
    ∧ ((∃ d, parse_sentiment_data (some "Coverage looks moderately negative overall") = some d
        ∧ -1 ≤ d.score ∧ d.score ≤ 1
        ∧ d.score ∈ ([0.8, 0.5, 0.3, -0.8, -0.5, -0.3, 0] : List ℚ)
        ∧ d.confidence = 85
        ∧ d.analysis = "Coverage looks moderately negative overall"
        ∧ (pyIn "positive" (pyLower "Coverage looks moderately negative overall") = true →
            d.category = "Positive")
        ∧ (pyIn "positive" (pyLower "Coverage looks moderately negative overall") = false →
            pyIn "negative" (pyLower "Coverage looks moderately negative overall") = true →
              d.category = "Negative")
        ∧ (pyIn "positive" (pyLower "Coverage looks moderately negative overall") = false →
            pyIn "negative" (pyLower "Coverage looks moderately negative overall") = false →
              d.category = "Neutral" ∧ d.score = 0))
      ∧ parse_sentiment_data none = none) :=
  ⟨by decide, parse_sentiment_data_shape "Coverage looks moderately negative overall" (by decide)⟩

end NewsSummarizer
